import Mathlib

/-!
Verification development for the etcd-benchmark repository.

Shallow embedding of the statistics-aggregation stage
(`src/benchmark-etcd-cluster.py`), the mixed-workload selection
(`src/benchmark.py`) and the USL fitting stage (`src/usl_analysis.py`).
Python floats are embedded as exact rationals (`ℚ`); fallible Python code
(raised exceptions) is embedded as `Except String`.
-/

namespace EtcdBench

/-! ### Python statistics helpers used by `analyze_results`

`statistics.mean`, `min`, `max`, `statistics.median` and
`statistics.quantiles(data, n=100)` (exclusive method) as called by
`EtcdBenchmark.analyze_results` and `EtcdBenchmark.percentile` in
`src/benchmark-etcd-cluster.py`. -/

/-- `sorted(data)`, the ascending sort performed by `statistics.median` and
`statistics.quantiles`. -/
def pySorted (data : List ℚ) : List ℚ :=
  data.insertionSort (· ≤ ·)

/-- `statistics.mean(data)` (exact rational value of the float result). -/
def pyMean (data : List ℚ) : ℚ :=
  data.sum / data.length

/-- Python `min(data)` for non-empty `data`. -/
def pyMin : List ℚ → ℚ
  | [] => 0
  | x :: xs => xs.foldl min x

/-- Python `max(data)` for non-empty `data`. -/
def pyMax : List ℚ → ℚ
  | [] => 0
  | x :: xs => xs.foldl max x

/-- `statistics.median(data)` for non-empty `data`: middle element of the
sorted data for odd length, mean of the two middle elements for even
length. -/
def pyMedian (data : List ℚ) : ℚ :=
  let s := pySorted data
  let n := s.length
  if n % 2 = 1 then s.getD (n / 2) 0
  else (s.getD (n / 2 - 1) 0 + s.getD (n / 2) 0) / 2

/-- The clamp `j = 1 if j < 1 else ld-1 if j > ld-1 else j` from the
exclusive branch of `statistics.quantiles` (CPython 3.11 `statistics.py`),
where `n` is the length of the data. -/
def clampJ (n jr : ℕ) : ℕ :=
  if jr < 1 then 1 else if n - 1 < jr then n - 1 else jr

/-- Interpolated value of the exclusive-method quantile machinery of
`statistics.quantiles(data, n=100)` on the sorted list `s` at integer
position `x = i * (len(data) + 1)` for cut index `i`:
`j = clamp(x / 100, 1, len - 1)`, `delta = x - 100 * j` (computed after the
clamp, so the value extrapolates beyond the extremes for small samples),
result `(s[j-1] * (100 - delta) + s[j] * delta) / 100`. -/
def interpAt (s : List ℚ) (x : ℕ) : ℚ :=
  let j := clampJ s.length (x / 100)
  let d : ℤ := (x : ℤ) - 100 * (j : ℤ)
  (s.getD (j - 1) 0 * ((100 : ℚ) - (d : ℚ)) + s.getD j 0 * (d : ℚ)) / 100

/-- `statistics.quantiles(data, n=100)[i - 1]`: the i-th percentile cut
point of `data` (1-based, `1 ≤ i ≤ 99`), defined for `data` of length ≥ 2. -/
def quantileCut (data : List ℚ) (i : ℕ) : ℚ :=
  interpAt (pySorted data) (i * (data.length + 1))

/-- `EtcdBenchmark.percentile(data, p)`: returns 0 for empty data, otherwise
`statistics.quantiles(data, n=100)[int(p * 100) - 1]`, which raises
`StatisticsError` for fewer than two data points. The cut index
`i = int(p * 100)` is precomputed: at the only call sites the float
arithmetic gives `int(0.95 * 100) = 95` and `int(0.99 * 100) = 99`. -/
def percentile (data : List ℚ) (i : ℕ) : Except String ℚ :=
  if data.isEmpty then .ok 0
  else if data.length < 2 then
    .error "StatisticsError: must have at least two data points"
  else .ok (quantileCut data i)

/-- The inner `calc_percentiles(data)` of `EtcdBenchmark.analyze_results`:
`(0, 0, 0, 0, 0, 0)` for empty data, otherwise the tuple
`(mean, min, max, median, percentile(data, 0.95), percentile(data, 0.99))`,
propagating the `StatisticsError` raised by `statistics.quantiles` on
samples with a single element. -/
def calcPercentiles (data : List ℚ) : Except String (ℚ × ℚ × ℚ × ℚ × ℚ × ℚ) :=
  if data.isEmpty then .ok (0, 0, 0, 0, 0, 0)
  else
    match percentile data 95, percentile data 99 with
    | .ok p95, .ok p99 =>
        .ok (pyMean data, pyMin data, pyMax data, pyMedian data, p95, p99)
    | .error e, _ => .error e
    | .ok _, .error e => .error e

/-- The nearest-rank percentile rule stated by the spec (not by the code):
sort the sample and pick `sorted[ceil(p * n) - 1]`. -/
def nearestRank (data : List ℚ) (p : ℚ) : ℚ :=
  let s := pySorted data
  s.getD ((⌈p * (s.length : ℚ)⌉).toNat - 1) 0

/-! ### Result data model and the aggregation stage -/

/-- `OperationResult` dataclass of `src/benchmark-etcd-cluster.py`. -/
structure OperationResult where
  operation : String
  success : Bool
  latency_ms : ℚ
  timestamp : ℚ
  endpoint : String
  error : String := ""
deriving DecidableEq

/-- `BenchmarkResults` dataclass of `src/benchmark-etcd-cluster.py`. The
per-kind latency dicts are embedded as the 6-tuples
`(avg, min, max, p50, p95, p99)` they are built from. -/
structure BenchmarkResults where
  total_operations : ℕ
  successful_operations : ℕ
  failed_operations : ℕ
  total_reads : ℕ
  total_writes : ℕ
  successful_reads : ℕ
  successful_writes : ℕ
  duration_seconds : ℚ
  throughput_ops_per_sec : ℚ
  read_throughput : ℚ
  write_throughput : ℚ
  avg_latency_ms : ℚ
  min_latency_ms : ℚ
  max_latency_ms : ℚ
  p50_latency_ms : ℚ
  p95_latency_ms : ℚ
  p99_latency_ms : ℚ
  read_latency_stats : ℚ × ℚ × ℚ × ℚ × ℚ × ℚ
  write_latency_stats : ℚ × ℚ × ℚ × ℚ × ℚ × ℚ
  endpoint_distribution : List (String × ℕ)
  errors : List String

/-- Python float division: raises `ZeroDivisionError` on a zero
denominator instead of producing a value. -/
def pydiv (num den : ℚ) : Except String ℚ :=
  if den = 0 then .error "ZeroDivisionError: float division by zero"
  else .ok (num / den)

/-- The endpoint distribution of `analyze_results`: each attempted
operation (successful or failed) adds one to the counter of its endpoint.
Embedded as the list of distinct endpoints paired with their occurrence
counts. -/
def endpointDistribution (rs : List OperationResult) : List (String × ℕ) :=
  let eps := rs.map (·.endpoint)
  eps.dedup.map (fun e => (e, eps.count e))

/-- `EtcdBenchmark.analyze_results(all_results, actual_duration)`:
raises `RuntimeError` on an empty merged result list, computes counts,
partitions by kind and success, runs `calc_percentiles` on the three
successful-latency samples (overall, read, write) — which raises
`StatisticsError` on a sample with exactly one element — and divides the
successful counts by `actual_duration` — which raises
`ZeroDivisionError` when the actual duration is 0. The deduplicated error
list models `list(set(errors))`. -/
def analyzeResults (all_results : List OperationResult) (actual_duration : ℚ) :
    Except String BenchmarkResults :=
  if all_results.isEmpty then .error "RuntimeError: No results to analyze"
  else
    let total_ops := all_results.length
    let successful_ops := (all_results.filter (·.success)).length
    let failed_ops := total_ops - successful_ops
    let reads := all_results.filter (fun r => r.operation == "read")
    let writes := all_results.filter (fun r => r.operation == "write")
    let successful_reads := reads.filter (·.success)
    let successful_writes := writes.filter (·.success)
    let successful_latencies := (all_results.filter (·.success)).map (·.latency_ms)
    let read_latencies := successful_reads.map (·.latency_ms)
    let write_latencies := successful_writes.map (·.latency_ms)
    let errs := ((all_results.filter (fun r => !r.success && r.error != "")).map
      (·.error)).dedup
    match calcPercentiles successful_latencies with
    | .error e => .error e
    | .ok (avg_lat, min_lat, max_lat, p50_lat, p95_lat, p99_lat) =>
      match calcPercentiles read_latencies with
      | .error e => .error e
      | .ok read_stats =>
        match calcPercentiles write_latencies with
        | .error e => .error e
        | .ok write_stats =>
          match pydiv successful_ops actual_duration with
          | .error e => .error e
          | .ok tput =>
            match pydiv successful_reads.length actual_duration with
            | .error e => .error e
            | .ok read_tput =>
              match pydiv successful_writes.length actual_duration with
              | .error e => .error e
              | .ok write_tput =>
                .ok
                  { total_operations := total_ops
                    successful_operations := successful_ops
                    failed_operations := failed_ops
                    total_reads := reads.length
                    total_writes := writes.length
                    successful_reads := successful_reads.length
                    successful_writes := successful_writes.length
                    duration_seconds := actual_duration
                    throughput_ops_per_sec := tput
                    read_throughput := read_tput
                    write_throughput := write_tput
                    avg_latency_ms := avg_lat
                    min_latency_ms := min_lat
                    max_latency_ms := max_lat
                    p50_latency_ms := p50_lat
                    p95_latency_ms := p95_lat
                    p99_latency_ms := p99_lat
                    read_latency_stats := read_stats
                    write_latency_stats := write_stats
                    endpoint_distribution := endpointDistribution all_results
                    errors := errs }

/-- Two successful read operations against one endpoint: the smallest
merged result list whose aggregation reaches the throughput divisions. -/
def twoReads : List OperationResult :=
  [{ operation := "read", success := true, latency_ms := 1, timestamp := 10,
     endpoint := "http://localhost:2379" },
   { operation := "read", success := true, latency_ms := 2, timestamp := 11,
     endpoint := "http://localhost:2379" }]

/-- One successful read operation: a merged result list on which the
aggregation stage crashes (see the `statistics.quantiles` precondition). -/
def oneRead : List OperationResult :=
  [{ operation := "read", success := true, latency_ms := 5, timestamp := 0,
     endpoint := "http://localhost:2379" }]

/-- The aggregation of `twoReads` over an actual duration of 1 second. -/
def twoReadsResults : BenchmarkResults :=
  { total_operations := 2
    successful_operations := 2
    failed_operations := 0
    total_reads := 2
    total_writes := 0
    successful_reads := 2
    successful_writes := 0
    duration_seconds := 1
    throughput_ops_per_sec := 2
    read_throughput := 2
    write_throughput := 0
    avg_latency_ms := 3 / 2
    min_latency_ms := 1
    max_latency_ms := 2
    p50_latency_ms := 3 / 2
    p95_latency_ms := 57 / 20
    p99_latency_ms := 297 / 100
    read_latency_stats := (3 / 2, 1, 2, 3 / 2, 57 / 20, 297 / 100)
    write_latency_stats := (0, 0, 0, 0, 0, 0)
    endpoint_distribution := [("http://localhost:2379", 2)]
    errors := [] }

/-! ### The single-operation executor

`EtcdBenchmarkClient.perform_operation` of `src/benchmark-etcd-cluster.py`.
The non-deterministic inputs of the Python code are passed explicitly:
`is_write` models `random.random() < self.config.write_ratio`, `choice`
models the index drawn by `random.choice(self.config.endpoints)` (which
raises `IndexError` on an empty sequence), `hasClient` models the
`self.etcd_clients.get(endpoint)` lookup, and `store` models the outcome
of the underlying `client.put`/`client.get` call together with the
key/value generation inside the `try` block (any raised exception `e`
becomes `.error (str e)`). `lat` and `ts` are the measured latency and
wall-clock timestamp. -/

/-- The endpoint drawn by `random.choice(self.config.endpoints)` for a
non-empty endpoint list, with `choice` the drawn position. -/
def chooseEndpoint (endpoints : List String) (choice : ℕ) : String :=
  endpoints.getD (choice % endpoints.length) ""

/-- `EtcdBenchmarkClient.perform_operation`: total on non-empty endpoint
lists — every store-call failure is converted into an `OperationResult`
with `success := false` carrying the error text rather than propagated. -/
def performOperation (endpoints : List String) (is_write : Bool) (choice : ℕ)
    (hasClient : String → Bool) (store : String → Except String Unit)
    (lat ts : ℚ) : Except String OperationResult :=
  let operation := if is_write then "write" else "read"
  if endpoints.isEmpty then
    .error "IndexError: Cannot choose from an empty sequence"
  else
    let endpoint := chooseEndpoint endpoints choice
    if !hasClient endpoint then
      .ok { operation := operation, success := false, latency_ms := 0,
            timestamp := ts, endpoint := endpoint,
            error := "No client available for endpoint" }
    else
      match store endpoint with
      | .ok _ =>
          .ok { operation := operation, success := true, latency_ms := lat,
                timestamp := ts, endpoint := endpoint, error := "" }
      | .error e =>
          .ok { operation := operation, success := false, latency_ms := lat,
                timestamp := ts, endpoint := endpoint, error := e }

/-! ### The mixed-workload read/write selection

`EtcdBenchmark.benchmark_mixed_workload` of `src/benchmark.py`, lines
211-218: the `if (operation_count % 100) == 0:` statement assigns
`should_read = (operation_count % 10) < (read_ratio * 10)` in both of its
branches. -/

/-- The read/write selection as written in the source, including the
redundant `if/else` on `(operation_count % 100) == 0`. -/
def shouldRead (operation_count : ℕ) (read_ratio : ℚ) : Bool :=
  if operation_count % 100 == 0 then
    decide (((operation_count % 10 : ℕ) : ℚ) < read_ratio * 10)
  else
    decide (((operation_count % 10 : ℕ) : ℚ) < read_ratio * 10)

/-! ### The USL fitting stage

`fit_usl_model` and its caller `create_usl_analysis_plots` of
`src/usl_analysis.py`. `scipy.optimize.curve_fit` is an external library
collaborator (not code of this repository); it is embedded as an abstract
interface carrying its two documented guarantees that the claims rely on:
it raises (`TypeError`) when there are fewer data points than the two free
parameters, and under `bounds=([0, 0], [1, 1])` any fitted parameters it
returns lie inside those bounds. -/

/-- `usl_function(N, alpha, beta) = N / (1 + alpha*(N-1) + beta*N*(N-1))`. -/
def uslFunction (N alpha beta : ℚ) : ℚ :=
  N / (1 + alpha * (N - 1) + beta * N * (N - 1))

/-- Abstract model of `scipy.optimize.curve_fit(usl_function, nodes, ys,
bounds=([0, 0], [1, 1]), maxfev=10000)`. `run nodes ys` returns either the
fitted parameters `(alpha, beta)` with their standard errors
`(alpha_err, beta_err)` (from `np.sqrt(np.diag(pcov))`), or the message of
the exception `curve_fit` raised. The two fields below record its
documented behaviour: a fit over fewer than 2 data points never succeeds
(the parameter count may not exceed the data-point count), and returned
parameters respect the `[0, 1]` bounds. -/
structure CurveFitModel where
  run : List ℚ → List ℚ → Except String ((ℚ × ℚ) × (ℚ × ℚ))
  run_underdetermined : ∀ nodes ys, ys.length < 2 →
    ∃ msg, run nodes ys = .error msg
  run_bounds : ∀ nodes ys ab errs, run nodes ys = .ok (ab, errs) →
    0 ≤ ab.1 ∧ ab.1 ≤ 1 ∧ 0 ≤ ab.2 ∧ ab.2 ≤ 1

/-- `usl_function(nodes_array, alpha, beta)` evaluated elementwise
(`y_pred` in `fit_usl_model`). -/
def uslPredictions (nodes : List ℚ) (alpha beta : ℚ) : List ℚ :=
  nodes.map (fun N => uslFunction N alpha beta)

/-- `r_squared = 1 - ss_res / ss_tot` of `fit_usl_model`, over the
normalized samples `ys` and the model predictions `ypred`. -/
def rSquared (ys ypred : List ℚ) : ℚ :=
  let ss_res := ((ys.zip ypred).map (fun p => (p.1 - p.2) ^ 2)).sum
  let ss_tot := (ys.map (fun y => (y - pyMean ys) ^ 2)).sum
  1 - ss_res / ss_tot

/-- The successful return value of `fit_usl_model`. -/
structure UslFit where
  alpha : ℚ
  beta : ℚ
  alpha_err : ℚ
  beta_err : ℚ
  r_squared : ℚ
  normalized_throughput : List ℚ
deriving DecidableEq

/-- `fit_usl_model(nodes, throughput)`. The statement
`normalized_throughput = np.array(throughput) / throughput[0]` runs before
the `try` block, so an empty `throughput` raises an uncaught `IndexError`
(outer `.error`); a zero baseline produces non-finite normalized values on
which `curve_fit` raises, and any exception inside the `try` block is
caught and turned into the all-`None` sentinel return (`.ok none`). There
is no check on the number of (distinct) data points and no dedicated
underdetermined-fit error. -/
def fitUslModel (cf : CurveFitModel) (nodes : List ℚ) :
    List ℚ → Except String (Option UslFit)
  | [] => .error "IndexError: list index out of range"
  | t0 :: rest =>
    if t0 = 0 then .ok none
    else
      match cf.run nodes ((t0 :: rest).map (· / t0)) with
      | .error _ => .ok none
      | .ok ((alpha, beta), (alpha_err, beta_err)) =>
          .ok (some
            { alpha := alpha, beta := beta, alpha_err := alpha_err,
              beta_err := beta_err,
              r_squared := rSquared ((t0 :: rest).map (· / t0))
                (uslPredictions nodes alpha beta),
              normalized_throughput := (t0 :: rest).map (· / t0) })

/-! ### The caller's extraction of the per-node-count series

`create_usl_analysis_plots` builds `nodes = sorted(results.keys())` and
looks the throughput sample of each node count up in the results mapping;
the mapping is embedded as an association list with distinct keys. -/

/-- `sorted(results.keys())`. -/
def sortedNodes (dataset : List (ℕ × ℚ)) : List ℕ :=
  (dataset.map Prod.fst).insertionSort (· ≤ ·)

/-- The throughput sample stored for node count `n` (0 if absent; a Python
`KeyError` cannot occur because lookups use keys of the mapping). -/
def lookupThroughput (dataset : List (ℕ × ℚ)) (n : ℕ) : ℚ :=
  ((dataset.find? (fun p => p.1 == n)).map Prod.snd).getD 0

/-- The throughput list passed to `fit_usl_model`, in ascending
node-count order. -/
def throughputSeries (dataset : List (ℕ × ℚ)) : List ℚ :=
  (sortedNodes dataset).map (lookupThroughput dataset)

/-- The normalization `np.array(throughput) / throughput[0]` performed by
`fit_usl_model` on the series extracted by `create_usl_analysis_plots`:
division by the first sample in node-count order. -/
def normalizedSeries (dataset : List (ℕ × ℚ)) : List ℚ :=
  let s := throughputSeries dataset
  s.map (fun t => t / s.headD 0)

/-- A possible behaviour of the curve-fit collaborator used to
instantiate concrete runs: it obeys both documented guarantees and
converges to `alpha = 1/10`, `beta = 1/100` whenever it has enough data
points. -/
def okCurveFitRun (_xs ys : List ℚ) : Except String ((ℚ × ℚ) × (ℚ × ℚ)) :=
  if ys.length < 2 then
    .error "TypeError: The number of func parameters=2 must not exceed the number of data points"
  else .ok ((1 / 10, 1 / 100), (0, 0))

/-- The `CurveFitModel` packaging `okCurveFitRun`. -/
def okCurveFit : CurveFitModel where
  run := okCurveFitRun
  run_underdetermined := by
    intro nodes ys h
    exact ⟨_, by rw [okCurveFitRun, if_pos h]⟩
  run_bounds := by
    intro nodes ys ab errs h
    rw [okCurveFitRun] at h
    split at h
    · exact absurd h (by simp)
    · rw [Except.ok.injEq, Prod.mk.injEq] at h
      obtain ⟨h1, h2⟩ := h
      rw [← h1]
      norm_num

/-! ### Helper lemmas about the quantile interpolation -/

lemma clampJ_pos {n : ℕ} (hn : 2 ≤ n) (jr : ℕ) : 1 ≤ clampJ n jr := by
  unfold clampJ
  split_ifs <;> omega

lemma clampJ_le_sub_one {n : ℕ} (hn : 2 ≤ n) (jr : ℕ) : clampJ n jr ≤ n - 1 := by
  unfold clampJ
  split_ifs <;> omega

lemma clampJ_mono {n : ℕ} (hn : 2 ≤ n) {a b : ℕ} (hab : a ≤ b) :
    clampJ n a ≤ clampJ n b := by
  unfold clampJ
  split_ifs <;> omega

lemma clampJ_eq_of_gt {n jr : ℕ} (h : n - 1 < jr) : clampJ n jr = n - 1 := by
  unfold clampJ
  split_ifs <;> omega

lemma clampJ_eq_one_of_lt (n : ℕ) {jr : ℕ} (h : jr < 1) : clampJ n jr = 1 := by
  unfold clampJ
  split_ifs
  all_goals omega

lemma le_clampJ_of_le {n jr : ℕ} (h : jr ≤ n - 1) : jr ≤ clampJ n jr := by
  unfold clampJ
  split_ifs <;> omega

lemma clampJ_le_of_pos {n jr : ℕ} (h1 : 1 ≤ jr) : clampJ n jr ≤ jr := by
  unfold clampJ
  split_ifs <;> omega

lemma sorted_getD_mono {s : List ℚ} (hs : s.Sorted (· ≤ ·)) {a b : ℕ}
    (hab : a ≤ b) (hb : b < s.length) : s.getD a 0 ≤ s.getD b 0 := by
  have ha : a < s.length := lt_of_le_of_lt hab hb
  rw [List.getD_eq_getElem s 0 ha, List.getD_eq_getElem s 0 hb]
  have h := hs.rel_get_of_le (a := ⟨a, ha⟩) (b := ⟨b, hb⟩) hab
  simpa using h

/-- Unfolded form of `interpAt` with the integer delta pushed to `ℚ`. -/
lemma interpAt_eq (s : List ℚ) (x : ℕ) :
    interpAt s x =
      (s.getD (clampJ s.length (x / 100) - 1) 0 *
          (100 - ((x : ℚ) - 100 * (clampJ s.length (x / 100) : ℚ))) +
        s.getD (clampJ s.length (x / 100)) 0 *
          ((x : ℚ) - 100 * (clampJ s.length (x / 100) : ℚ))) / 100 := by
  unfold interpAt
  push_cast
  ring_nf

/-- Monotonicity of the exclusive-method interpolation in the scaled
position, over a sorted sample of at least two elements. -/
lemma interpAt_mono {s : List ℚ} (hs : s.Sorted (· ≤ ·)) (hn : 2 ≤ s.length)
    {x y : ℕ} (hxy : x ≤ y) : interpAt s x ≤ interpAt s y := by
  have hjx1 : 1 ≤ clampJ s.length (x / 100) := clampJ_pos hn _
  have hjy1 : 1 ≤ clampJ s.length (y / 100) := clampJ_pos hn _
  have hjxn : clampJ s.length (x / 100) ≤ s.length - 1 := clampJ_le_sub_one hn _
  have hjyn : clampJ s.length (y / 100) ≤ s.length - 1 := clampJ_le_sub_one hn _
  have hij : clampJ s.length (x / 100) ≤ clampJ s.length (y / 100) :=
    clampJ_mono hn (Nat.div_le_div_right hxy)
  rw [interpAt_eq, interpAt_eq]
  set jx := clampJ s.length (x / 100) with hjxdef
  set jy := clampJ s.length (y / 100) with hjydef
  have hjxlt : jx < s.length := by omega
  have hjylt : jy < s.length := by omega
  rcases eq_or_lt_of_le hij with heq | hlt
  · -- same segment: the value is affine in the position with
    -- non-negative slope
    rw [← heq]
    have hab : s.getD (jx - 1) 0 ≤ s.getD jx 0 :=
      sorted_getD_mono hs (by omega) hjxlt
    have hq : (x : ℚ) ≤ (y : ℚ) := by exact_mod_cast hxy
    rw [div_le_div_iff_of_pos_right (by norm_num : (0 : ℚ) < 100)]
    nlinarith [mul_nonneg (sub_nonneg.2 hab) (sub_nonneg.2 hq)]
  · -- the position crosses at least one node: chain through the nodes
    have hxr : x / 100 ≤ s.length - 1 := by
      by_contra hc
      push_neg at hc
      have hx := clampJ_eq_of_gt hc
      rw [← hjxdef] at hx
      omega
    have hx_le : x ≤ 100 * jx + 99 := by
      have h1 : x / 100 ≤ jx := le_clampJ_of_le hxr
      have h2 := Nat.div_add_mod x 100
      have h3 : x % 100 < 100 := Nat.mod_lt x (by norm_num)
      omega
    have hyr1 : 1 ≤ y / 100 := by
      by_contra hc
      push_neg at hc
      have hy := clampJ_eq_one_of_lt s.length hc
      rw [← hjydef] at hy
      omega
    have hy_ge : 100 * jy ≤ y := by
      have h1 : jy ≤ y / 100 := clampJ_le_of_pos hyr1
      have h2 := Nat.div_add_mod y 100
      omega
    have hab1 : s.getD (jx - 1) 0 ≤ s.getD jx 0 :=
      sorted_getD_mono hs (by omega) hjxlt
    have hab2 : s.getD (jy - 1) 0 ≤ s.getD jy 0 :=
      sorted_getD_mono hs (by omega) hjylt
    have hmid : s.getD jx 0 ≤ s.getD (jy - 1) 0 :=
      sorted_getD_mono hs (by omega) (by omega)
    have hdx : (x : ℚ) - 100 * (jx : ℚ) ≤ 100 := by
      have : (x : ℚ) ≤ 100 * (jx : ℚ) + 99 := by exact_mod_cast hx_le
      linarith
    have hdy : 0 ≤ (y : ℚ) - 100 * (jy : ℚ) := by
      have : 100 * (jy : ℚ) ≤ (y : ℚ) := by exact_mod_cast hy_ge
      linarith
    have step1 :
        (s.getD (jx - 1) 0 * (100 - ((x : ℚ) - 100 * (jx : ℚ))) +
            s.getD jx 0 * ((x : ℚ) - 100 * (jx : ℚ))) / 100 ≤ s.getD jx 0 := by
      rw [div_le_iff₀ (by norm_num : (0 : ℚ) < 100)]
      nlinarith [mul_nonneg (sub_nonneg.2 hab1) (sub_nonneg.2 hdx)]
    have step2 :
        s.getD (jy - 1) 0 ≤
          (s.getD (jy - 1) 0 * (100 - ((y : ℚ) - 100 * (jy : ℚ))) +
            s.getD jy 0 * ((y : ℚ) - 100 * (jy : ℚ))) / 100 := by
      rw [le_div_iff₀ (by norm_num : (0 : ℚ) < 100)]
      nlinarith [mul_nonneg (sub_nonneg.2 hab2) hdy]
    calc (s.getD (jx - 1) 0 * (100 - ((x : ℚ) - 100 * (jx : ℚ))) +
            s.getD jx 0 * ((x : ℚ) - 100 * (jx : ℚ))) / 100
        ≤ s.getD jx 0 := step1
      _ ≤ s.getD (jy - 1) 0 := hmid
      _ ≤ (s.getD (jy - 1) 0 * (100 - ((y : ℚ) - 100 * (jy : ℚ))) +
            s.getD jy 0 * ((y : ℚ) - 100 * (jy : ℚ))) / 100 := step2

lemma pySorted_length (data : List ℚ) : (pySorted data).length = data.length :=
  (List.perm_insertionSort _ data).length_eq

lemma pySorted_sorted (data : List ℚ) : (pySorted data).Sorted (· ≤ ·) :=
  List.sorted_insertionSort _ data

/-- On samples of at least two elements, `statistics.median` coincides with
the 50th cut point of the exclusive quantile interpolation. -/
lemma pyMedian_eq_interpAt (data : List ℚ) (h2 : 2 ≤ data.length) :
    pyMedian data = interpAt (pySorted data) (50 * (data.length + 1)) := by
  have hlen := pySorted_length data
  rw [pyMedian, interpAt_eq]
  rcases Nat.even_or_odd data.length with ⟨k, hk⟩ | ⟨k, hk⟩
  · -- even length: both sides average the two middle elements
    have hk1 : 1 ≤ k := by omega
    have hjr : 50 * (data.length + 1) / 100 = k := by omega
    have hcl : clampJ (pySorted data).length (50 * (data.length + 1) / 100) = k := by
      rw [hjr]
      unfold clampJ
      split_ifs <;> omega
    rw [hcl]
    have hd : ((50 * (data.length + 1) : ℕ) : ℚ) - 100 * (k : ℚ) = 50 := by
      push_cast
      have : (data.length : ℚ) = 2 * (k : ℚ) := by exact_mod_cast (by omega : data.length = 2 * k)
      linarith
    rw [hd]
    have hmod : (pySorted data).length % 2 = 1 ↔ False := by
      constructor
      · intro hcontra; omega
      · intro hcontra; exact hcontra.elim
    rw [if_neg (by omega : ¬ (pySorted data).length % 2 = 1)]
    have hidx : (pySorted data).length / 2 = k := by omega
    rw [hidx]
    ring
  · -- odd length: both sides pick the middle element
    have hk1 : 1 ≤ k := by omega
    have hjr : 50 * (data.length + 1) / 100 = k + 1 := by omega
    have hcl : clampJ (pySorted data).length (50 * (data.length + 1) / 100) = k + 1 := by
      rw [hjr]
      unfold clampJ
      split_ifs <;> omega
    rw [hcl]
    have hd : 50 * ((data.length : ℚ) + 1) - 100 * ((k : ℚ) + 1) = 0 := by
      have : (data.length : ℚ) = 2 * (k : ℚ) + 1 := by
        exact_mod_cast (by omega : data.length = 2 * k + 1)
      linarith
    push_cast
    rw [hd]
    rw [if_pos (by omega : (pySorted data).length % 2 = 1)]
    have hidx : (pySorted data).length / 2 = k := by omega
    rw [hidx]
    ring

/-- Characterization of the successful outcomes of `calc_percentiles`. -/
lemma calcPercentiles_ok_cases (data : List ℚ) (t : ℚ × ℚ × ℚ × ℚ × ℚ × ℚ)
    (h : calcPercentiles data = .ok t) :
    (data = [] ∧ t = (0, 0, 0, 0, 0, 0)) ∨
      (2 ≤ data.length ∧
        t = (pyMean data, pyMin data, pyMax data, pyMedian data,
             quantileCut data 95, quantileCut data 99)) := by
  by_cases hd : data = []
  · left
    refine ⟨hd, ?_⟩
    subst hd
    simp only [calcPercentiles, List.isEmpty_nil, if_true] at h
    exact (Except.ok.injEq _ _ ▸ h).symm
  · right
    have hlen1 : 1 ≤ data.length := by
      cases data with
      | nil => exact absurd rfl hd
      | cons a l => simp
    have hne : data.isEmpty = false := by
      cases data with
      | nil => exact absurd rfl hd
      | cons a l => rfl
    by_cases h2 : 2 ≤ data.length
    · refine ⟨h2, ?_⟩
      simp only [calcPercentiles, percentile, hne, Bool.false_eq_true, if_false,
        if_neg (by omega : ¬ data.length < 2)] at h
      exact (Except.ok.injEq _ _ ▸ h).symm
    · exfalso
      simp only [calcPercentiles, percentile, hne, Bool.false_eq_true, if_false,
        if_pos (by omega : data.length < 2)] at h
      exact Except.noConfusion h

/-- The percentile ordering `p50 ≤ p95 ≤ p99` for every tuple
`calc_percentiles` actually returns. -/
lemma calcPercentiles_ordering (data : List ℚ) (t : ℚ × ℚ × ℚ × ℚ × ℚ × ℚ)
    (h : calcPercentiles data = .ok t) :
    t.2.2.2.1 ≤ t.2.2.2.2.1 ∧ t.2.2.2.2.1 ≤ t.2.2.2.2.2 := by
  rcases calcPercentiles_ok_cases data t h with ⟨_, ht⟩ | ⟨h2, ht⟩
  · subst ht
    norm_num
  · subst ht
    have hs := pySorted_sorted data
    have hlen := pySorted_length data
    have h2s : 2 ≤ (pySorted data).length := by omega
    refine ⟨?_, ?_⟩
    · show pyMedian data ≤ quantileCut data 95
      rw [pyMedian_eq_interpAt data h2]
      exact interpAt_mono hs h2s (Nat.mul_le_mul_right _ (by norm_num))
    · show quantileCut data 95 ≤ quantileCut data 99
      exact interpAt_mono hs h2s (Nat.mul_le_mul_right _ (by norm_num))

/-- Sum of the endpoint-distribution counters. -/
lemma endpointDistribution_sum (rs : List OperationResult) :
    ((endpointDistribution rs).map Prod.snd).sum = rs.length := by
  unfold endpointDistribution
  rw [List.map_map]
  have h := List.sum_map_count_dedup_eq_length (rs.map (·.endpoint))
  have hcomp :
      (Prod.snd ∘ fun e => (e, (rs.map (·.endpoint)).count e)) =
        fun e => (rs.map (·.endpoint)).count e := rfl
  rw [hcomp, h, List.length_map]

/-- Inversion of a successful `analyze_results` run: the duration is
non-zero and every field of the produced record is determined by the
merged result list and the duration. -/
lemma analyzeResults_ok_fields (rs : List OperationResult) (d : ℚ)
    (r : BenchmarkResults) (h : analyzeResults rs d = .ok r) :
    d ≠ 0
    ∧ r.total_operations = rs.length
    ∧ r.successful_operations = (rs.filter (·.success)).length
    ∧ r.failed_operations = rs.length - (rs.filter (·.success)).length
    ∧ r.successful_reads =
        ((rs.filter (fun x => x.operation == "read")).filter (·.success)).length
    ∧ r.successful_writes =
        ((rs.filter (fun x => x.operation == "write")).filter (·.success)).length
    ∧ r.duration_seconds = d
    ∧ r.throughput_ops_per_sec = ((rs.filter (·.success)).length : ℚ) / d
    ∧ r.read_throughput =
        (((rs.filter (fun x => x.operation == "read")).filter (·.success)).length : ℚ) / d
    ∧ r.write_throughput =
        (((rs.filter (fun x => x.operation == "write")).filter (·.success)).length : ℚ) / d
    ∧ r.endpoint_distribution = endpointDistribution rs
    ∧ calcPercentiles ((rs.filter (·.success)).map (·.latency_ms)) =
        .ok (r.avg_latency_ms, r.min_latency_ms, r.max_latency_ms,
             r.p50_latency_ms, r.p95_latency_ms, r.p99_latency_ms) := by
  unfold analyzeResults at h
  split at h
  · exact absurd h (by simp)
  · dsimp only [] at h
    split at h
    · exact absurd h (by simp)
    · rename_i avg_lat min_lat max_lat p50_lat p95_lat p99_lat hcalc1
      split at h
      · exact absurd h (by simp)
      · rename_i read_stats hcalc2
        split at h
        · exact absurd h (by simp)
        · rename_i write_stats hcalc3
          split at h
          · exact absurd h (by simp)
          · rename_i tput hdiv1
            split at h
            · exact absurd h (by simp)
            · rename_i read_tput hdiv2
              split at h
              · exact absurd h (by simp)
              · rename_i write_tput hdiv3
                rw [Except.ok.injEq] at h
                subst h
                unfold pydiv at hdiv1 hdiv2 hdiv3
                split at hdiv1
                · exact absurd hdiv1 (by simp)
                · rename_i hdz
                  rw [if_neg hdz] at hdiv2 hdiv3
                  rw [Except.ok.injEq] at hdiv1 hdiv2 hdiv3
                  refine ⟨hdz, rfl, rfl, rfl, rfl, rfl, rfl, ?_, ?_, ?_, rfl, ?_⟩
                  · exact hdiv1.symm
                  · exact hdiv2.symm
                  · exact hdiv3.symm
                  · exact hcalc1

/-- Concrete aggregation run used to instantiate the claim theorems. -/
lemma twoReads_analyze : analyzeResults twoReads 1 = .ok twoReadsResults := by
  simp only [analyzeResults, twoReads, twoReadsResults, calcPercentiles,
    percentile, quantileCut, pySorted, interpAt, clampJ, pyMean, pyMin,
    pyMax, pyMedian, pydiv, endpointDistribution, List.dedup]
  norm_num [List.filter, List.dedup, List.insertionSort, List.orderedInsert]
  decide

/-! ### Claim theorems -/

/-- C5: for every merged result set accepted by aggregation — in
particular for every non-empty successful-latency sample — the reported
latency percentiles satisfy `p50 ≤ p95 ≤ p99`. -/
theorem percentile_ordering_p50_p95_p99 (rs : List OperationResult) (d : ℚ)
    (r : BenchmarkResults) (h : analyzeResults rs d = .ok r) :
    r.p50_latency_ms ≤ r.p95_latency_ms ∧ r.p95_latency_ms ≤ r.p99_latency_ms := by
  obtain ⟨-, -, -, -, -, -, -, -, -, -, -, hcalc⟩ :=
    analyzeResults_ok_fields rs d r h
  exact calcPercentiles_ordering _ _ hcalc

/-- C5 witness: the ordering holds on the concrete two-read run. -/
theorem percentile_ordering_p50_p95_p99_witness :
    twoReadsResults.p50_latency_ms ≤ twoReadsResults.p95_latency_ms ∧
      twoReadsResults.p95_latency_ms ≤ twoReadsResults.p99_latency_ms :=
  percentile_ordering_p50_p95_p99 twoReads 1 twoReadsResults twoReads_analyze

/-- C7: every record produced by aggregation satisfies
`successful + failed = total` and the endpoint-distribution counters sum
to the total operation count. -/
theorem aggregation_count_invariants (rs : List OperationResult) (d : ℚ)
    (r : BenchmarkResults) (h : analyzeResults rs d = .ok r) :
    r.successful_operations + r.failed_operations = r.total_operations ∧
      (r.endpoint_distribution.map Prod.snd).sum = r.total_operations := by
  obtain ⟨-, htot, hsucc, hfail, -, -, -, -, -, -, hdist, -⟩ :=
    analyzeResults_ok_fields rs d r h
  constructor
  · rw [htot, hsucc, hfail]
    have hle : (rs.filter (·.success)).length ≤ rs.length :=
      List.length_filter_le _ _
    omega
  · rw [htot, hdist]
    exact endpointDistribution_sum rs

/-- C7 witness: the count invariants hold on the concrete two-read run. -/
theorem aggregation_count_invariants_witness :
    twoReadsResults.successful_operations + twoReadsResults.failed_operations =
        twoReadsResults.total_operations ∧
      (twoReadsResults.endpoint_distribution.map Prod.snd).sum =
        twoReadsResults.total_operations :=
  aggregation_count_invariants twoReads 1 twoReadsResults twoReads_analyze

/-- C2 counterexample: with an actual duration of 0 the aggregation does
not report throughput 0 — it raises `ZeroDivisionError`, refuting the
claimed exception-free zero fallback. -/
theorem zero_duration_aggregation_raises :
    analyzeResults twoReads 0 =
      .error "ZeroDivisionError: float division by zero" := by
  simp only [analyzeResults, twoReads, calcPercentiles, percentile,
    quantileCut, pySorted, interpAt, clampJ, pyMean, pyMin, pyMax,
    pyMedian, pydiv]
  norm_num [List.filter]

/-- C2 (amended): a record is produced only for a non-zero actual
duration, and then each throughput equals the corresponding
successful-operation count divided by that duration; a zero duration
instead raises `ZeroDivisionError`. -/
theorem throughput_division_requires_nonzero_duration
    (rs : List OperationResult) (d : ℚ) (r : BenchmarkResults)
    (h : analyzeResults rs d = .ok r) :
    d ≠ 0
    ∧ r.throughput_ops_per_sec = (r.successful_operations : ℚ) / d
    ∧ r.read_throughput = (r.successful_reads : ℚ) / d
    ∧ r.write_throughput = (r.successful_writes : ℚ) / d := by
  obtain ⟨hdz, -, hsucc, -, hsr, hsw, -, htp, hrt, hwt, -, -⟩ :=
    analyzeResults_ok_fields rs d r h
  refine ⟨hdz, ?_, ?_, ?_⟩
  · rw [htp, hsucc]
  · rw [hrt, hsr]
  · rw [hwt, hsw]

/-- C2 (amended) witness: the throughput equations hold on the concrete
two-read run with duration 1. -/
theorem throughput_division_requires_nonzero_duration_witness :
    (1 : ℚ) ≠ 0
    ∧ twoReadsResults.throughput_ops_per_sec =
        (twoReadsResults.successful_operations : ℚ) / 1
    ∧ twoReadsResults.read_throughput =
        (twoReadsResults.successful_reads : ℚ) / 1
    ∧ twoReadsResults.write_throughput =
        (twoReadsResults.successful_writes : ℚ) / 1 :=
  throughput_division_requires_nonzero_duration twoReads 1 twoReadsResults
    twoReads_analyze

/-- C6: claim correct, code wrong — a non-empty merged result list with a
single successful operation does not produce a `BenchmarkResults` record:
`statistics.quantiles` raises `StatisticsError` on the one-element
successful-latency sample, so aggregation fails on a non-empty input. -/
theorem singleton_success_aggregation_raises :
    analyzeResults oneRead 1 =
      .error "StatisticsError: must have at least two data points" := by
  simp only [analyzeResults, oneRead, calcPercentiles, percentile,
    quantileCut, pySorted, interpAt, clampJ, pyMean, pyMin, pyMax,
    pyMedian, pydiv]
  norm_num [List.filter]

/-- C1 counterexample: on the sample `[1, 2]` the aggregation reports
`p50 = 3/2` and `p95 = 57/20`, while the nearest-rank rule
`sorted[ceil(p*n) - 1]` stated by the spec gives `1` and `2`. -/
theorem percentiles_not_nearest_rank :
    calcPercentiles [1, 2] = .ok (3 / 2, 1, 2, 3 / 2, 57 / 20, 297 / 100)
    ∧ nearestRank [1, 2] (50 / 100) = 1
    ∧ nearestRank [1, 2] (95 / 100) = 2
    ∧ (3 / 2 : ℚ) ≠ 1
    ∧ (57 / 20 : ℚ) ≠ 2 := by
  refine ⟨?_, ?_, ?_, by norm_num, by norm_num⟩
  · norm_num [calcPercentiles, percentile, quantileCut, pySorted, interpAt,
      clampJ, pyMean, pyMin, pyMax, pyMedian]
  · have h : ⌈(1 : ℚ)⌉ = 1 := by norm_num
    norm_num [nearestRank, pySorted, h]
  · have h : ⌈(19 : ℚ) / 10⌉ = 2 := by norm_num [Int.ceil_eq_iff]
    norm_num [nearestRank, pySorted, h]
    rfl

/-- C1 (amended): for every merged result set accepted by aggregation,
the reported overall percentiles follow the rules the code actually
implements — `p50` is `statistics.median` of the successful-latency
sample and `p95`/`p99` are the 95th and 99th exclusive-method
interpolated cut points of `statistics.quantiles(·, n=100)`; an empty
sample reports zeros (and a one-element sample is never reported, since
aggregation raises on it). -/
theorem reported_percentiles_median_and_interpolated_cuts
    (rs : List OperationResult) (d : ℚ) (r : BenchmarkResults)
    (h : analyzeResults rs d = .ok r) :
    ((rs.filter (·.success)).map (·.latency_ms) = [] →
      r.p50_latency_ms = 0 ∧ r.p95_latency_ms = 0 ∧ r.p99_latency_ms = 0)
    ∧ ((rs.filter (·.success)).map (·.latency_ms) ≠ [] →
      r.p50_latency_ms = pyMedian ((rs.filter (·.success)).map (·.latency_ms))
      ∧ r.p95_latency_ms =
          quantileCut ((rs.filter (·.success)).map (·.latency_ms)) 95
      ∧ r.p99_latency_ms =
          quantileCut ((rs.filter (·.success)).map (·.latency_ms)) 99) := by
  obtain ⟨-, -, -, -, -, -, -, -, -, -, -, hcalc⟩ :=
    analyzeResults_ok_fields rs d r h
  rcases calcPercentiles_ok_cases _ _ hcalc with ⟨hnil, ht⟩ | ⟨h2, ht⟩
  · rw [Prod.mk.injEq, Prod.mk.injEq, Prod.mk.injEq, Prod.mk.injEq,
      Prod.mk.injEq] at ht
    refine ⟨fun _ => ⟨ht.2.2.2.1, ht.2.2.2.2.1, ht.2.2.2.2.2⟩, fun hne => ?_⟩
    exact absurd hnil hne
  · rw [Prod.mk.injEq, Prod.mk.injEq, Prod.mk.injEq, Prod.mk.injEq,
      Prod.mk.injEq] at ht
    refine ⟨fun hnil => ?_, fun _ => ⟨ht.2.2.2.1, ht.2.2.2.2.1, ht.2.2.2.2.2⟩⟩
    rw [hnil] at h2
    exact absurd h2 (by norm_num)

/-- C1 (amended) witness: on the concrete two-read run the reported
percentiles equal the median and the interpolated cut points of the
sample `[1, 2]`. -/
theorem reported_percentiles_median_and_interpolated_cuts_witness :
    twoReadsResults.p50_latency_ms =
        pyMedian ((twoReads.filter (·.success)).map (·.latency_ms))
      ∧ twoReadsResults.p95_latency_ms =
          quantileCut ((twoReads.filter (·.success)).map (·.latency_ms)) 95
      ∧ twoReadsResults.p99_latency_ms =
          quantileCut ((twoReads.filter (·.success)).map (·.latency_ms)) 99 :=
  (reported_percentiles_median_and_interpolated_cuts twoReads 1
    twoReadsResults twoReads_analyze).2 (by decide)

/-- C9: on a non-empty endpoint list `perform_operation` never raises —
it always returns an `OperationResult` — and every failure of the
underlying store call is captured as a result with `success = false`
carrying the error text. -/
theorem perform_operation_captures_store_failures
    (endpoints : List String) (is_write : Bool) (choice : ℕ)
    (hasClient : String → Bool) (store : String → Except String Unit)
    (lat ts : ℚ) (h : endpoints ≠ []) :
    (∀ e : String,
      performOperation endpoints is_write choice hasClient store lat ts ≠ .error e)
    ∧ (∀ msg : String,
        hasClient (chooseEndpoint endpoints choice) = true →
        store (chooseEndpoint endpoints choice) = .error msg →
        performOperation endpoints is_write choice hasClient store lat ts =
          .ok { operation := if is_write then "write" else "read",
                success := false, latency_ms := lat, timestamp := ts,
                endpoint := chooseEndpoint endpoints choice, error := msg }) := by
  have hne : endpoints.isEmpty = false := by
    cases endpoints with
    | nil => exact absurd rfl h
    | cons a l => rfl
  constructor
  · intro e hcontra
    cases hhc2 : hasClient (chooseEndpoint endpoints choice) with
    | false => simp [performOperation, hne, hhc2] at hcontra
    | true =>
      cases hst2 : store (chooseEndpoint endpoints choice) with
      | ok u => simp [performOperation, hne, hhc2, hst2] at hcontra
      | error msg2 => simp [performOperation, hne, hhc2, hst2] at hcontra
  · intro msg hhc hst
    simp [performOperation, hne, hhc, hst]

/-- C9 witness: a concrete store failure against one endpoint is returned
as a failed result carrying the error text. -/
theorem perform_operation_captures_store_failures_witness :
    performOperation ["http://localhost:2379"] false 0 (fun _ => true)
        (fun _ => .error "connection refused") 1 0 =
      .ok { operation := "read", success := false, latency_ms := 1,
            timestamp := 0, endpoint := "http://localhost:2379",
            error := "connection refused" } :=
  (perform_operation_captures_store_failures ["http://localhost:2379"]
    false 0 (fun _ => true) (fun _ => .error "connection refused") 1 0
    (by simp)).2 "connection refused" rfl rfl

/-- C10: both branches of the `if (operation_count % 100) == 0` statement
assign the same condition, so the mixed-workload selection is equivalent
to the single rule `read iff (operation_count % 10) < read_ratio * 10`. -/
theorem mixed_selection_equals_single_rule (operation_count : ℕ)
    (read_ratio : ℚ) :
    shouldRead operation_count read_ratio =
      decide (((operation_count % 10 : ℕ) : ℚ) < read_ratio * 10) := by
  unfold shouldRead
  split
  · rfl
  · rfl

/-- C3 counterexample: a dataset with exactly two distinct node counts is
fitted — `fit_usl_model` has no distinct-node-count precondition and no
`FitUnderdetermined` error, and a convergent run of the external
optimizer on two data points makes it return coefficients. -/
theorem two_node_dataset_fit_returns_coefficients :
    fitUslModel okCurveFit [1, 2] [100, 150] =
      .ok (some
        { alpha := 1 / 10, beta := 1 / 100, alpha_err := 0, beta_err := 0,
          r_squared := 17 / 49, normalized_throughput := [1, 3 / 2] }) := by
  norm_num [fitUslModel, okCurveFit, okCurveFitRun, rSquared,
    uslPredictions, uslFunction, pyMean]

/-- C3 (amended): `fit_usl_model` performs no check on the number of
distinct node counts. Whenever the baseline sample is non-zero and the
external optimizer returns coefficients — which its documented interface
permits for any dataset with at least two points — the fit passes them
through; and for a single-point dataset the optimizer's own precondition
failure is caught and turned into the all-`None` sentinel, not a typed
underdetermined error. -/
theorem fit_has_no_distinct_node_count_guard (cf : CurveFitModel)
    (nodes rest : List ℚ) (t0 a b ae be : ℚ) (h0 : t0 ≠ 0)
    (hrun : cf.run nodes ((t0 :: rest).map (· / t0)) = .ok ((a, b), (ae, be))) :
    fitUslModel cf nodes (t0 :: rest) =
      .ok (some
        { alpha := a, beta := b, alpha_err := ae, beta_err := be,
          r_squared := rSquared ((t0 :: rest).map (· / t0))
            (uslPredictions nodes a b),
          normalized_throughput := (t0 :: rest).map (· / t0) })
    ∧ fitUslModel cf nodes [t0] = .ok none := by
  constructor
  · simp only [fitUslModel]
    rw [if_neg h0, hrun]
  · obtain ⟨msg, hmsg⟩ := cf.run_underdetermined nodes ([t0].map (· / t0))
      (by simp)
    simp only [fitUslModel]
    rw [if_neg h0]
    rw [hmsg]

/-- C3 (amended) witness: the concrete two-point fit goes through the
pass-through equation and the one-point fit yields the sentinel. -/
theorem fit_has_no_distinct_node_count_guard_witness :
    fitUslModel okCurveFit [1, 2] [100, 150] =
      .ok (some
        { alpha := 1 / 10, beta := 1 / 100, alpha_err := 0, beta_err := 0,
          r_squared := rSquared ([(100 : ℚ), 150].map (· / 100))
            (uslPredictions [1, 2] (1 / 10) (1 / 100)),
          normalized_throughput := [(100 : ℚ), 150].map (· / 100) })
    ∧ fitUslModel okCurveFit [1, 2] [100] = .ok none :=
  fit_has_no_distinct_node_count_guard okCurveFit [1, 2] [150] 100
    (1 / 10) (1 / 100) 0 0 (by norm_num)
    (by norm_num [okCurveFit, okCurveFitRun])

/-- C8: every successful fit returns coefficients inside the `[0, 1]`
bounds passed to the optimizer. -/
theorem fitted_coefficients_within_bounds (cf : CurveFitModel)
    (nodes throughput : List ℚ) (f : UslFit)
    (h : fitUslModel cf nodes throughput = .ok (some f)) :
    0 ≤ f.alpha ∧ f.alpha ≤ 1 ∧ 0 ≤ f.beta ∧ f.beta ≤ 1 := by
  cases throughput with
  | nil => exact absurd h (by simp [fitUslModel])
  | cons t0 rest =>
    simp only [fitUslModel] at h
    split at h
    · exact absurd h (by simp)
    · split at h
      · exact absurd h (by simp)
      · rename_i alpha beta alpha_err beta_err hrun
        rw [Except.ok.injEq, Option.some.injEq] at h
        have hb := cf.run_bounds _ _ _ _ hrun
        rw [← h]
        exact hb

/-- C8 witness: the concrete two-point fit yields coefficients inside the
bounds. -/
theorem fitted_coefficients_within_bounds_witness :
    (0 : ℚ) ≤ (1 / 10 : ℚ) ∧ (1 / 10 : ℚ) ≤ 1 ∧
      (0 : ℚ) ≤ (1 / 100 : ℚ) ∧ (1 / 100 : ℚ) ≤ 1 :=
  fitted_coefficients_within_bounds okCurveFit [1, 2] [100, 150]
    { alpha := 1 / 10, beta := 1 / 100, alpha_err := 0, beta_err := 0,
      r_squared := 17 / 49, normalized_throughput := [1, 3 / 2] }
    (by norm_num [fitUslModel, okCurveFit, okCurveFitRun, rSquared,
      uslPredictions, uslFunction, pyMean])

/-- C4 counterexample: on the dataset `{2: 100, 4: 150, 6: 180}` — which
contains no node-count-1 sample at all — the fit still normalizes, and it
divides by the sample at node count 2 (the smallest present), not by a
node-count-1 baseline. -/
theorem normalization_divides_by_smallest_node_sample :
    sortedNodes [(2, (100 : ℚ)), (4, 150), (6, 180)] = [2, 4, 6]
    ∧ ¬ (1 ∈ ([(2, (100 : ℚ)), (4, 150), (6, 180)].map Prod.fst))
    ∧ lookupThroughput [(2, (100 : ℚ)), (4, 150), (6, 180)] 2 = 100
    ∧ normalizedSeries [(2, (100 : ℚ)), (4, 150), (6, 180)] = [1, 3 / 2, 9 / 5]
    ∧ normalizedSeries [(2, (100 : ℚ)), (4, 150), (6, 180)] =
        (throughputSeries [(2, (100 : ℚ)), (4, 150), (6, 180)]).map
          (fun t => t / lookupThroughput [(2, (100 : ℚ)), (4, 150), (6, 180)] 2) := by
  have l2 : lookupThroughput [(2, (100 : ℚ)), (4, 150), (6, 180)] 2 = 100 := by
    decide
  have l4 : lookupThroughput [(2, (100 : ℚ)), (4, 150), (6, 180)] 4 = 150 := by
    decide
  have l6 : lookupThroughput [(2, (100 : ℚ)), (4, 150), (6, 180)] 6 = 180 := by
    decide
  refine ⟨by decide, by decide, l2, ?_, ?_⟩
  · simp only [normalizedSeries, throughputSeries, sortedNodes]
    norm_num [List.insertionSort, List.orderedInsert, l2, l4, l6]
  · simp only [normalizedSeries, throughputSeries, sortedNodes]
    norm_num [List.insertionSort, List.orderedInsert, l2, l4, l6]

/-- C4 (amended): the fit divides every sample by the first sample in
ascending node-count order. When the dataset does contain the node-count-1
baseline (and node counts are positive), that first sample is exactly the
node-count-1 sample — so each sample is divided by the baseline and the
normalized baseline value is 1 whenever the baseline is non-zero. -/
theorem normalization_uses_baseline_when_present (d : List (ℕ × ℚ))
    (hpos : ∀ p ∈ d, 1 ≤ p.1) (h1 : 1 ∈ d.map Prod.fst) :
    (sortedNodes d).headD 0 = 1
    ∧ normalizedSeries d =
        (throughputSeries d).map (fun t => t / lookupThroughput d 1)
    ∧ (lookupThroughput d 1 ≠ 0 → (normalizedSeries d).headD 0 = 1) := by
  have hsort : (sortedNodes d).Sorted (· ≤ ·) :=
    List.sorted_insertionSort _ _
  have hperm : List.Perm (sortedNodes d) (d.map Prod.fst) :=
    List.perm_insertionSort _ _
  have h1s : 1 ∈ sortedNodes d := hperm.mem_iff.2 h1
  obtain ⟨a, t, hcons⟩ : ∃ a t, sortedNodes d = a :: t := by
    cases hsn : sortedNodes d with
    | nil =>
      rw [hsn] at h1s
      exact absurd h1s (List.not_mem_nil 1)
    | cons a t => exact ⟨a, t, rfl⟩
  have hha : a = 1 := by
    have hle : a ≤ 1 := by
      rw [hcons] at h1s
      rcases List.mem_cons.1 h1s with heq | hmem
      · omega
      · exact List.rel_of_sorted_cons (hcons ▸ hsort) 1 hmem
    have hge : 1 ≤ a := by
      have ham : a ∈ sortedNodes d := by
        rw [hcons]
        exact List.mem_cons_self a t
      have ham2 : a ∈ d.map Prod.fst := hperm.mem_iff.1 ham
      obtain ⟨p, hp, hpa⟩ := List.mem_map.1 ham2
      have := hpos p hp
      omega
    omega
  subst hha
  have hser : throughputSeries d =
      lookupThroughput d 1 :: t.map (lookupThroughput d) := by
    unfold throughputSeries
    rw [hcons]
    rfl
  have hhead : (throughputSeries d).headD 0 = lookupThroughput d 1 := by
    rw [hser]
    rfl
  refine ⟨by rw [hcons]; rfl, ?_, ?_⟩
  · simp only [normalizedSeries]
    simp only [hhead]
  · intro hne0
    simp only [normalizedSeries, hhead, hser, List.map_cons, List.headD_cons]
    exact div_self hne0

/-- C4 (amended) witness: on the dataset `{1: 100, 3: 250, 5: 350}` the
normalization divides by the node-count-1 sample and the normalized
baseline is 1. -/
theorem normalization_uses_baseline_when_present_witness :
    (sortedNodes [(1, (100 : ℚ)), (3, 250), (5, 350)]).headD 0 = 1
    ∧ normalizedSeries [(1, (100 : ℚ)), (3, 250), (5, 350)] =
        (throughputSeries [(1, (100 : ℚ)), (3, 250), (5, 350)]).map
          (fun t => t / lookupThroughput [(1, (100 : ℚ)), (3, 250), (5, 350)] 1)
    ∧ (lookupThroughput [(1, (100 : ℚ)), (3, 250), (5, 350)] 1 ≠ 0 →
        (normalizedSeries [(1, (100 : ℚ)), (3, 250), (5, 350)]).headD 0 = 1) :=
  normalization_uses_baseline_when_present [(1, (100 : ℚ)), (3, 250), (5, 350)]
    (by decide) (by decide)

end EtcdBench
